import Mathlib

/-!
Verification of the certificate rendering engine of the
certificate-generation-server repository.

The definitions below are a shallow embedding of the TypeScript sources:
  * src/generators/image/ImageCertificateGenerator.ts (renderer, orchestrator,
    filename derivation, archive builder),
  * the certificate job queue worker (the empty-record guard), and
  * the data model of certificate.types.

JavaScript numbers appearing in layout arithmetic are modelled as rationals;
JavaScript record values as a string/number sum type with JS truthiness; the
PDFKit drawing calls as an explicit trace of drawing operations; the
filesystem as explicit association lists threaded through the functions.
-/

namespace CertGen

/-- A JavaScript scalar stored in a data record: string or number
(DataRecord values in certificate.types). -/
inductive JsValue where
  | str : String → JsValue
  | num : Int → JsValue
  deriving DecidableEq, Repr

/-- JavaScript truthiness of a record value: the empty string and the
number 0 are falsy, everything else is truthy. -/
def JsValue.truthy : JsValue → Bool
  | .str s => decide (s ≠ "")
  | .num n => decide (n ≠ 0)

/-- The JavaScript coercion String(v) of a scalar. -/
def JsValue.toText : JsValue → String
  | .str s => s
  | .num n => toString n

/-- A flat data record: finite map from string keys to scalars
(interface DataRecord). -/
abbrev DataRecord := List (String × JsValue)

/-- Property lookup record[k]; none models JavaScript undefined. -/
def recordGet (r : DataRecord) (k : String) : Option JsValue :=
  (r.find? (fun p => p.1 == k)).map (fun p => p.2)

/-- The renderer's value extraction String(record[mapping.csvColumn] || ''):
an absent key, the empty string and the number 0 all yield "". -/
def coerceValue (r : DataRecord) (k : String) : String :=
  match recordGet r k with
  | some v => if v.truthy then v.toText else ""
  | none => ""

/-- Text alignment of a field (align?: 'left' | 'center' | 'right'). -/
inductive Align where
  | left
  | center
  | right
  deriving DecidableEq, Repr

/-- One overlay rule (interface FieldMapping in certificate.types). -/
structure FieldMapping where
  csvColumn : String
  x : Rat
  y : Rat
  fontSize : Rat
  font : Option String := none
  color : Option String := none
  width : Option Rat := none
  align : Option Align := none
  deriving DecidableEq, Repr

/-- JavaScript opt || dflt on an optional string: undefined and the
empty string both fall back to the default. -/
def orStr : Option String → String → String
  | some s, d => if s = "" then d else s
  | none, d => d

/-- JavaScript opt || dflt on an optional number: undefined and 0 both
fall back to the default. -/
def orRat : Option Rat → Rat → Rat
  | some q, d => if q = 0 then d else q
  | none, d => d

/-- JavaScript opt || dflt on the align field: the three legal string
values are all truthy, so any present value wins. -/
def orAlign : Option Align → Align → Align
  | some a, _ => a
  | none, d => d

/-- One PDFKit drawing call issued while producing a certificate page. -/
inductive PdfOp where
  | image : String → Rat → Rat → Rat → Rat → PdfOp
  | setFont : String → Rat → PdfOp
  | setColor : String → PdfOp
  | text : String → Rat → Rat → Rat → Align → PdfOp
  | saveState : PdfOp
  | setOpacity : Rat → PdfOp
  | restoreState : PdfOp
  deriving DecidableEq, Repr

/-- The filesystem facts the renderer consults: which font files exist
under fonts/, and which image files exist together with their decoded
pixel dimensions. -/
structure FsEnv where
  fontFiles : List String
  images : List (String × (Rat × Rat))
  deriving Repr

/-- Decoded dimensions of an image file, none when the file is unreadable
(models Jimp.read). -/
def FsEnv.imageDims (env : FsEnv) (p : String) : Option (Rat × Rat) :=
  (env.images.find? (fun q => q.1 == p)).map (fun q => q.2)

/-- path.join on a POSIX filesystem, for the paths this code builds. -/
def pathJoin (a b : String) : String := a ++ "/" ++ b

/-- String suffix test (String.prototype.endsWith), via character lists. -/
def strEndsWith (s suffix : String) : Bool :=
  List.isSuffixOf suffix.data s.data

/-- Whether a font name refers to a custom font asset
(fontName.endsWith('.ttf') || fontName.endsWith('.otf')). -/
def isCustomFont (fontName : String) : Bool :=
  strEndsWith fontName ".ttf" || strEndsWith fontName ".otf"

/-- Font selection of addTextFields: a custom font asset is looked up under
fonts/; when absent the renderer warns and falls back to Helvetica-Bold.
Returns the font handed to doc.font together with the warnings logged. -/
def resolveFont (env : FsEnv) (fontName : String) : String × List String :=
  if isCustomFont fontName then
    let fontPath := pathJoin "fonts" fontName
    if env.fontFiles.contains fontPath then (fontPath, [])
    else ("Helvetica-Bold",
      ["Custom font not found at " ++ fontPath ++ ", using Helvetica-Bold"])
  else (fontName, [])

/-- The loop body of addTextFields for one field mapping: the drawing calls
issued for this field and the warnings logged. A falsy value skips the
field entirely. -/
def renderField (env : FsEnv) (imgWidth : Rat) (r : DataRecord)
    (m : FieldMapping) : List PdfOp × List String :=
  let value := coerceValue r m.csvColumn
  if value = "" then ([], [])
  else
    let fontName := orStr m.font "Helvetica-Bold"
    let fontSize := if m.fontSize = 0 then 36 else m.fontSize
    let resolved := resolveFont env fontName
    let color := orStr m.color "#000000"
    let textY := m.y - fontSize * ((3 : Rat) / 4)
    let maxWidth := orRat m.width (imgWidth - m.x - 50)
    let alignment := orAlign m.align Align.left
    ([PdfOp.setFont resolved.1 fontSize, PdfOp.setColor color,
      PdfOp.text value m.x textY maxWidth alignment], resolved.2)

/-- addTextFields: renders every field mapping in list order, concatenating
drawing calls and warnings. -/
def addTextFields (env : FsEnv) (imgWidth : Rat) (r : DataRecord) :
    List FieldMapping → List PdfOp × List String
  | [] => ([], [])
  | m :: ms =>
    let hd := renderField env imgWidth r m
    let tl := addTextFields env imgWidth r ms
    (hd.1 ++ tl.1, hd.2 ++ tl.2)

/-- addFreeWatermark: the fixed semi-transparent FREE overlay drawn in the
lower-right region for free-tier output. -/
def addFreeWatermark (width height : Rat) : List PdfOp :=
  [PdfOp.saveState, PdfOp.setOpacity ((3 : Rat) / 10),
   PdfOp.setFont "Helvetica-Bold" 48, PdfOp.setColor "#FF0000",
   PdfOp.text "FREE" (width - 200) (height - 80) 180 Align.center,
   PdfOp.restoreState]

/-- Package tier of a generation request (enum PackageType). -/
inductive PackageType where
  | free
  | standard
  | premium
  | custom
  deriving DecidableEq, Repr

/-- A certificate template (ICertificateTemplate): imagePath is the
metadata.imagePath entry, none when missing. -/
structure ICertificateTemplate where
  id : String
  name : String
  type : String
  fields : List FieldMapping
  imagePath : Option String
  deriving DecidableEq, Repr

/-- validateTemplate of ImageCertificateGenerator: requires type image,
a nonempty imagePath, and that the image file exists. -/
def validateTemplate (env : FsEnv) (t : ICertificateTemplate) :
    Except String Unit :=
  if t.type ≠ "image" then .error "Template type must be \"image\""
  else
    match t.imagePath with
    | none => .error "Image template must have imagePath in metadata"
    | some p =>
      if p = "" then .error "Image template must have imagePath in metadata"
      else if (env.imageDims p).isSome then .ok ()
      else .error ("Template image not found at: " ++ p)

/-- generateSingle: reads the image dimensions, draws the background image,
the mapped fields in order, and the free watermark when the package tier is
free. Returns the page's drawing-call trace and the warnings logged. -/
def generateSingle (env : FsEnv) (t : ICertificateTemplate) (r : DataRecord)
    (pkg : PackageType) : Except String (List PdfOp × List String) :=
  match t.imagePath with
  | none => .error "image read failed"
  | some p =>
    match env.imageDims p with
    | none => .error ("image read failed: " ++ p)
    | some wh =>
      let fieldsOut := addTextFields env wh.1 r t.fields
      let wm := if pkg = PackageType.free then addFreeWatermark wh.1 wh.2 else []
      .ok (PdfOp.image p 0 0 wh.1 wh.2 :: (fieldsOut.1 ++ wm), fieldsOut.2)

/-- Filesystem-safe characters of generateFileName's sanitizing regex
[^a-zA-Z0-9-_]. -/
def isSafeChar (c : Char) : Bool :=
  c.isAlpha || c.isDigit || c = '-' || c = '_'

/-- One step of the sanitizing replace: unsafe characters become '-'. -/
def sanitizeChar (c : Char) : Char := if isSafeChar c then c else '-'

/-- The replace(/[^a-zA-Z0-9-_]/g, '-') step of generateFileName. -/
def sanitize (s : String) : String := String.mk (s.data.map sanitizeChar)

/-- String.prototype.substring(0, n). -/
def strTake (n : Nat) (s : String) : String := String.mk (s.data.take n)

/-- The JavaScript || chain over record values: first truthy value wins. -/
def firstTruthy (r : DataRecord) : List String → Option JsValue
  | [] => none
  | k :: ks =>
    match recordGet r k with
    | some v => if v.truthy then some v else firstTruthy r ks
    | none => firstTruthy r ks

/-- The nameField expression of generateFileName:
record.name || record.Name || record.fullname || record.FullName ||
record-(index+1). -/
def nameField (r : DataRecord) (index : Nat) : String :=
  match firstTruthy r ["name", "Name", "fullname", "FullName"] with
  | some v => v.toText
  | none => "record-" ++ toString (index + 1)

/-- generateFileName: sanitized, truncated name fragment plus the first
eight characters of a fresh uuid. -/
def generateFileName (r : DataRecord) (index : Nat) (uuid : String) : String :=
  let sanitized := strTake 50 (sanitize (nameField r index))
  "certificate-" ++ sanitized ++ "-" ++ strTake 8 uuid ++ ".pdf"

/-- One entry of the produced zip archive: entry name, file content, and
zlib compression level. -/
structure ZipEntry where
  name : String
  content : List PdfOp
  level : Nat
  deriving DecidableEq, Repr

/-- Whether path p lies below directory dir. -/
def isUnder (dir p : String) : Bool :=
  List.isPrefixOf (dir.data ++ ['/']) p.data

/-- The archive entry name of a file below dir: its path relative to dir. -/
def relName (dir p : String) : String :=
  String.mk (p.data.drop (dir.data.length + 1))

/-- createZipArchive via archiver's directory(sourceDir, false): every file
below the source directory is stored under its path relative to that
directory, at zlib level 9. -/
def createZipArchive (files : List (String × List PdfOp)) (sourceDir : String) :
    List ZipEntry :=
  (files.filter (fun f => isUnder sourceDir f.1)).map
    (fun f => ⟨relName sourceDir f.1, f.2, 9⟩)

/-- One manifest entry (interface GeneratedCertificate). -/
structure GeneratedCertificate where
  name : String
  path : String
  data : DataRecord
  deriving DecidableEq, Repr

/-- The result of a generation call (interface GenerationResult). -/
structure GenerationResult where
  certificates : List GeneratedCertificate
  zipPath : String
  batchDir : String
  count : Nat
  deriving DecidableEq, Repr

/-- The full observable outcome of a generation call: its returned or
thrown result, the certificate files written, and the archive entries. -/
structure GenOutcome where
  result : Except String GenerationResult
  written : List (String × List PdfOp)
  zipEntries : List ZipEntry
  deriving Repr

/-- The ambient state of one generation call: filesystem facts, the two
Date.now() readings (batch directory, zip name), and the uuid stream, one
uuid per record index. -/
structure GenEnv where
  fs : FsEnv
  nowBatch : Nat
  nowZip : Nat
  uuids : Nat → String

/-- The per-record loop of generate: renders each record in order, names
its file, and records the write. An error aborts the loop, leaving the
files already written in place. -/
def generateLoop (env : GenEnv) (t : ICertificateTemplate) (pkg : PackageType)
    (batchDir : String) : List DataRecord → Nat →
    Except String (List GeneratedCertificate) × List (String × List PdfOp)
  | [], _ => (.ok [], [])
  | r :: rs, i =>
    let fileName := generateFileName r i (env.uuids i)
    let outputPath := pathJoin batchDir fileName
    match generateSingle env.fs t r pkg with
    | .error e => (.error e, [])
    | .ok doc =>
      let rest := generateLoop env t pkg batchDir rs (i + 1)
      match rest.1 with
      | .error e => (.error e, (outputPath, doc.1) :: rest.2)
      | .ok certs =>
        (.ok (⟨fileName, outputPath, r⟩ :: certs),
         (outputPath, doc.1) :: rest.2)

/-- generate of ImageCertificateGenerator: validates the template, derives
the batch directory from Date.now(), renders every record sequentially,
then archives the batch directory (fs0 is the filesystem content that
already existed before the call). -/
def generate (env : GenEnv) (fs0 : List (String × List PdfOp))
    (t : ICertificateTemplate) (records : List DataRecord)
    (pkg : PackageType) : GenOutcome :=
  match validateTemplate env.fs t with
  | .error e => ⟨.error e, [], []⟩
  | .ok _ =>
    let batchId := "batch-" ++ toString env.nowBatch
    let batchDir := pathJoin "output" batchId
    let run := generateLoop env t pkg batchDir records 0
    match run.1 with
    | .error e => ⟨.error e, run.2, []⟩
    | .ok certs =>
      let zipPath := pathJoin "output"
        ("certificates-" ++ toString env.nowZip ++ ".zip")
      let entries := createZipArchive (fs0 ++ run.2) batchDir
      ⟨.ok ⟨certs, zipPath, batchDir, certs.length⟩, run.2, entries⟩

/-- The certificate queue worker: rejects an empty record set with an
explicit error before invoking the generator. -/
def processJob (env : GenEnv) (fs0 : List (String × List PdfOp))
    (t : ICertificateTemplate) (records : List DataRecord)
    (pkg : PackageType) : GenOutcome :=
  if records.length = 0 then ⟨.error "No records found in data file", [], []⟩
  else generate env fs0 t records pkg

/-- The spec's name-selection rule, stated from the spec's wording for
comparison with nameField: the first of the keys name, Name, fullname,
FullName that is present in the record, else the positional placeholder. -/
def nameFieldSpec (r : DataRecord) (index : Nat) : String :=
  match recordGet r "name" with
  | some v => v.toText
  | none =>
    match recordGet r "Name" with
    | some v => v.toText
    | none =>
      match recordGet r "fullname" with
      | some v => v.toText
      | none =>
        match recordGet r "FullName" with
        | some v => v.toText
        | none => "record-" ++ toString (index + 1)

/-- Concrete filesystem for witnesses: one template image, no font files. -/
def wFs : FsEnv := ⟨[], [("tpl.png", (1000, 700))]⟩

/-- Concrete field mapping for witnesses. -/
def wMapping : FieldMapping :=
  ⟨"name", 500, 280, 36, none, none, some 800, some Align.center⟩

/-- Concrete template for witnesses. -/
def wTpl : ICertificateTemplate :=
  ⟨"t1", "Sample", "image", [wMapping], some "tpl.png"⟩

/-- Concrete data record for witnesses. -/
def wRecord : DataRecord := [("name", JsValue.str "Ada Lovelace")]

/-- Concrete generation environment for witnesses. -/
def wEnv : GenEnv := ⟨wFs, 1000, 2000, fun _ => "0123456789abcdef"⟩

/-- The generation result of the concrete witness run. -/
def wResult : GenerationResult :=
  ((generate wEnv [] wTpl [wRecord] PackageType.standard).result).toOption.getD
    ⟨[], "", "", 0⟩

/-- First of two concurrent invocations: same clock reading, its own
uuid stream. -/
def cEnvA : GenEnv := ⟨wFs, 1000, 2000, fun _ => "aaaaaaaaaaaaaaaa"⟩

/-- Second of two concurrent invocations: same clock reading, a different
uuid stream. -/
def cEnvB : GenEnv := ⟨wFs, 1000, 2000, fun _ => "bbbbbbbbbbbbbbbb"⟩

/-- Record set of the first concurrent invocation. -/
def cRecA : DataRecord := [("name", JsValue.str "Ada")]

/-- Record set of the second concurrent invocation. -/
def cRecB : DataRecord := [("name", JsValue.str "Bob")]

/-- Result of the first concurrent invocation. -/
def cResA : GenerationResult :=
  ((generate cEnvA [] wTpl [cRecA] PackageType.standard).result).toOption.getD
    ⟨[], "", "", 0⟩

/-- Result of the second concurrent invocation. -/
def cResB : GenerationResult :=
  ((generate cEnvB [] wTpl [cRecB] PackageType.standard).result).toOption.getD
    ⟨[], "", "", 0⟩

/-- A record whose mapped key carries the number 0, for the C10 witness. -/
def wRecordZero : DataRecord := [("name", JsValue.num 0)]

/-- A mapping whose font references a missing custom font asset, for the
C8 witness. -/
def wMappingFancy : FieldMapping :=
  ⟨"name", 500, 280, 36, some "Fancy.ttf", none, none, none⟩

/-- A template using the missing custom font, for the C8 witness. -/
def wTplFancy : ICertificateTemplate :=
  ⟨"t2", "Fancy", "image", [wMappingFancy], some "tpl.png"⟩

/- ------------------------------------------------------------------ -/
/- Theorems                                                           -/
/- ------------------------------------------------------------------ -/

/-- C1: a generation call with zero records fails with the explicit
error "No records found in data file" raised by the queue worker before
the generator runs: no certificate file is written, no archive entry is
produced, and the batch directory (created only inside generate) is
never created. -/
theorem empty_records_fail_fast (env : GenEnv)
    (fs0 : List (String × List PdfOp)) (t : ICertificateTemplate)
    (pkg : PackageType) :
    processJob env fs0 t [] pkg =
      ⟨.error "No records found in data file", [], []⟩ := rfl

/-- C4: a field mapping whose source key is absent from the record issues
no drawing call at all (in particular no text) and logs no warning: the
field is silently skipped. -/
theorem absent_key_skips_field (env : FsEnv) (imgWidth : Rat)
    (r : DataRecord) (m : FieldMapping)
    (h : recordGet r m.csvColumn = none) :
    renderField env imgWidth r m = ([], []) := by
  simp [renderField, coerceValue, h]

/-- Witness for C4 at a concrete empty record and mapping. -/
theorem absent_key_skips_field_witness :
    recordGet [] wMapping.csvColumn = none
    ∧ renderField wFs 1000 [] wMapping = ([], []) :=
  ⟨rfl, absent_key_skips_field wFs 1000 [] wMapping rfl⟩

/-- C10: a field mapping whose source key is present but bound to the
number 0 or to the empty string is skipped exactly like an absent key:
no drawing call is issued, so the text "0" is never rendered. -/
theorem falsy_value_skips_field (env : FsEnv) (imgWidth : Rat)
    (r : DataRecord) (m : FieldMapping)
    (h : recordGet r m.csvColumn = some (JsValue.num 0)
      ∨ recordGet r m.csvColumn = some (JsValue.str "")) :
    renderField env imgWidth r m = ([], []) := by
  rcases h with h | h <;> simp [renderField, coerceValue, h, JsValue.truthy]

/-- Witness for C10 at a record binding the mapped key to the number 0. -/
theorem falsy_value_skips_field_witness :
    (recordGet wRecordZero wMapping.csvColumn = some (JsValue.num 0)
      ∨ recordGet wRecordZero wMapping.csvColumn = some (JsValue.str ""))
    ∧ renderField wFs 1000 wRecordZero wMapping = ([], []) :=
  ⟨Or.inl rfl,
   falsy_value_skips_field wFs 1000 wRecordZero wMapping (Or.inl rfl)⟩

/-- C7: a drawn field's text call uses origin (x, y - fontSize*3/4), a
width that is the mapping's own width when set (and nonzero) and defaults
to imageWidth - x - 50 when unset, and the mapping's alignment defaulting
to left. -/
theorem text_draw_geometry (env : FsEnv) (w : Rat) (r : DataRecord)
    (m : FieldMapping) (hv : coerceValue r m.csvColumn ≠ "")
    (hfs : m.fontSize ≠ 0) :
    (renderField env w r m).1 =
      [PdfOp.setFont (resolveFont env (orStr m.font "Helvetica-Bold")).1
        m.fontSize,
       PdfOp.setColor (orStr m.color "#000000"),
       PdfOp.text (coerceValue r m.csvColumn) m.x
         (m.y - m.fontSize * ((3 : Rat) / 4))
         (orRat m.width (w - m.x - 50)) (orAlign m.align Align.left)]
    ∧ (m.width = none → orRat m.width (w - m.x - 50) = w - m.x - 50)
    ∧ (∀ q, m.width = some q → q ≠ 0 → orRat m.width (w - m.x - 50) = q)
    ∧ (m.align = none → orAlign m.align Align.left = Align.left)
    ∧ (∀ a, m.align = some a → orAlign m.align Align.left = a) := by
  refine ⟨?_, ?_, ?_, ?_, ?_⟩
  · simp [renderField, hv, hfs]
  · intro h; simp [orRat, h]
  · intro q h hq; simp [orRat, h, hq]
  · intro h; simp [orAlign, h]
  · intro a h; simp [orAlign, h]

/-- Witness for C7 at the concrete witness mapping and record. -/
theorem text_draw_geometry_witness :
    coerceValue wRecord wMapping.csvColumn ≠ ""
    ∧ wMapping.fontSize ≠ 0
    ∧ ((renderField wFs 1000 wRecord wMapping).1 =
        [PdfOp.setFont
          (resolveFont wFs (orStr wMapping.font "Helvetica-Bold")).1
          wMapping.fontSize,
         PdfOp.setColor (orStr wMapping.color "#000000"),
         PdfOp.text (coerceValue wRecord wMapping.csvColumn) wMapping.x
           (wMapping.y - wMapping.fontSize * ((3 : Rat) / 4))
           (orRat wMapping.width (1000 - wMapping.x - 50))
           (orAlign wMapping.align Align.left)]
      ∧ (wMapping.width = none →
          orRat wMapping.width (1000 - wMapping.x - 50)
            = 1000 - wMapping.x - 50)
      ∧ (∀ q, wMapping.width = some q → q ≠ 0 →
          orRat wMapping.width (1000 - wMapping.x - 50) = q)
      ∧ (wMapping.align = none →
          orAlign wMapping.align Align.left = Align.left)
      ∧ (∀ a, wMapping.align = some a →
          orAlign wMapping.align Align.left = a)) :=
  ⟨by decide, by decide,
   text_draw_geometry wFs 1000 wRecord wMapping (by decide) (by decide)⟩

/-- C8: a field whose font names a custom font asset that is not present
falls back to Helvetica-Bold, logs exactly one warning naming the missing
path, still draws the field's text, and the certificate render as a whole
still returns a successful document. -/
theorem missing_custom_font_falls_back (env : FsEnv) (w : Rat)
    (r : DataRecord) (m : FieldMapping) (t : ICertificateTemplate)
    (pkg : PackageType) (p : String) (dims : Rat × Rat)
    (hv : coerceValue r m.csvColumn ≠ "")
    (hcustom : isCustomFont (orStr m.font "Helvetica-Bold") = true)
    (hmissing : pathJoin "fonts" (orStr m.font "Helvetica-Bold")
      ∉ env.fontFiles)
    (hp : t.imagePath = some p) (hdim : env.imageDims p = some dims) :
    (renderField env w r m).1 =
      [PdfOp.setFont "Helvetica-Bold"
        (if m.fontSize = 0 then 36 else m.fontSize),
       PdfOp.setColor (orStr m.color "#000000"),
       PdfOp.text (coerceValue r m.csvColumn) m.x
         (m.y - (if m.fontSize = 0 then 36 else m.fontSize) * ((3 : Rat) / 4))
         (orRat m.width (w - m.x - 50)) (orAlign m.align Align.left)]
    ∧ (renderField env w r m).2 =
        ["Custom font not found at "
          ++ pathJoin "fonts" (orStr m.font "Helvetica-Bold")
          ++ ", using Helvetica-Bold"]
    ∧ ∃ out, generateSingle env t r pkg = .ok out := by
  refine ⟨?_, ?_, ?_⟩
  · simp [renderField, hv, resolveFont, hcustom, hmissing]
  · simp [renderField, hv, resolveFont, hcustom, hmissing]
  · exact ⟨(PdfOp.image p 0 0 dims.1 dims.2 ::
      ((addTextFields env dims.1 r t.fields).1 ++
        if pkg = PackageType.free then addFreeWatermark dims.1 dims.2
        else []),
      (addTextFields env dims.1 r t.fields).2),
      by simp [generateSingle, hp, hdim]⟩

/-- Witness for C8 at a mapping referencing the missing font Fancy.ttf. -/
theorem missing_custom_font_falls_back_witness :
    coerceValue wRecord wMappingFancy.csvColumn ≠ ""
    ∧ isCustomFont (orStr wMappingFancy.font "Helvetica-Bold") = true
    ∧ pathJoin "fonts" (orStr wMappingFancy.font "Helvetica-Bold")
        ∉ wFs.fontFiles
    ∧ wTplFancy.imagePath = some "tpl.png"
    ∧ wFs.imageDims "tpl.png" = some (1000, 700)
    ∧ ((renderField wFs 1000 wRecord wMappingFancy).1 =
        [PdfOp.setFont "Helvetica-Bold"
          (if wMappingFancy.fontSize = 0 then 36 else wMappingFancy.fontSize),
         PdfOp.setColor (orStr wMappingFancy.color "#000000"),
         PdfOp.text (coerceValue wRecord wMappingFancy.csvColumn)
           wMappingFancy.x
           (wMappingFancy.y
             - (if wMappingFancy.fontSize = 0 then 36
                else wMappingFancy.fontSize) * ((3 : Rat) / 4))
           (orRat wMappingFancy.width (1000 - wMappingFancy.x - 50))
           (orAlign wMappingFancy.align Align.left)]
      ∧ (renderField wFs 1000 wRecord wMappingFancy).2 =
          ["Custom font not found at "
            ++ pathJoin "fonts" (orStr wMappingFancy.font "Helvetica-Bold")
            ++ ", using Helvetica-Bold"]
      ∧ ∃ out, generateSingle wFs wTplFancy wRecord PackageType.standard
          = .ok out) :=
  ⟨by decide, by decide, by decide, rfl, rfl,
   missing_custom_font_falls_back wFs 1000 wRecord wMappingFancy wTplFancy
     PackageType.standard "tpl.png" (1000, 700) (by decide) (by decide)
     (by decide) rfl rfl⟩

/-- Field rendering never touches the opacity state: the opacity call is
the distinguishing mark of the watermark block. -/
theorem setOpacity_not_mem_addTextFields (env : FsEnv) (w : Rat)
    (r : DataRecord) (q : Rat) :
    ∀ ms : List FieldMapping, PdfOp.setOpacity q ∉ (addTextFields env w r ms).1 := by
  intro ms
  induction ms with
  | nil => simp [addTextFields]
  | cons m ms ih =>
    simp only [addTextFields, List.mem_append, not_or]
    refine ⟨?_, ih⟩
    unfold renderField
    by_cases hv : coerceValue r m.csvColumn = "" <;> simp [hv]

/-- C5: with a readable background image, the free tier draws the fixed
semi-transparent FREE watermark block after all field texts (the document
trace ends with it), and any other tier draws no watermark at all (no
opacity call anywhere in the trace). -/
theorem watermark_iff_free (env : FsEnv) (t : ICertificateTemplate)
    (r : DataRecord) (pkg : PackageType) (p : String) (w h : Rat)
    (hp : t.imagePath = some p) (hdim : env.imageDims p = some (w, h)) :
    (pkg = PackageType.free →
      generateSingle env t r pkg =
        .ok (PdfOp.image p 0 0 w h ::
          ((addTextFields env w r t.fields).1 ++ addFreeWatermark w h),
          (addTextFields env w r t.fields).2))
    ∧ (pkg ≠ PackageType.free →
      generateSingle env t r pkg =
        .ok (PdfOp.image p 0 0 w h :: (addTextFields env w r t.fields).1,
          (addTextFields env w r t.fields).2)
      ∧ ∀ q, PdfOp.setOpacity q
          ∉ PdfOp.image p 0 0 w h :: (addTextFields env w r t.fields).1) := by
  constructor
  · intro hfree
    subst hfree
    simp [generateSingle, hp, hdim]
  · intro hnfree
    refine ⟨by simp [generateSingle, hp, hdim, hnfree], ?_⟩
    intro q hq
    rcases List.mem_cons.mp hq with hq | hq
    · cases hq
    · exact setOpacity_not_mem_addTextFields env w r q t.fields hq

/-- Witness for C5 at the concrete witness template and record. -/
theorem watermark_iff_free_witness :
    wTpl.imagePath = some "tpl.png"
    ∧ wFs.imageDims "tpl.png" = some (1000, 700)
    ∧ ((PackageType.free = PackageType.free →
        generateSingle wFs wTpl wRecord PackageType.free =
          .ok (PdfOp.image "tpl.png" 0 0 1000 700 ::
            ((addTextFields wFs 1000 wRecord wTpl.fields).1
              ++ addFreeWatermark 1000 700),
            (addTextFields wFs 1000 wRecord wTpl.fields).2))
      ∧ (PackageType.free ≠ PackageType.free →
        generateSingle wFs wTpl wRecord PackageType.free =
          .ok (PdfOp.image "tpl.png" 0 0 1000 700 ::
            (addTextFields wFs 1000 wRecord wTpl.fields).1,
            (addTextFields wFs 1000 wRecord wTpl.fields).2)
        ∧ ∀ q, PdfOp.setOpacity q
            ∉ PdfOp.image "tpl.png" 0 0 1000 700 ::
              (addTextFields wFs 1000 wRecord wTpl.fields).1)) :=
  ⟨rfl, rfl,
   watermark_iff_free wFs wTpl wRecord PackageType.free "tpl.png" 1000 700
     rfl rfl⟩

/-- When every name-like key that is present in the record holds a truthy
value, the code's truthiness-based name chain agrees with the spec's
presence-based priority list. -/
theorem nameField_agrees (r : DataRecord) (index : Nat)
    (ht : ∀ k ∈ (["name", "Name", "fullname", "FullName"] : List String),
      Option.all JsValue.truthy (recordGet r k) = true) :
    nameField r index = nameFieldSpec r index := by
  have h1 := ht "name" (by simp)
  have h2 := ht "Name" (by simp)
  have h3 := ht "fullname" (by simp)
  have h4 := ht "FullName" (by simp)
  cases e1 : recordGet r "name" with
  | some v =>
    have hv : v.truthy = true := by rw [e1] at h1; simpa [Option.all] using h1
    simp [nameField, nameFieldSpec, firstTruthy, e1, hv]
  | none =>
    cases e2 : recordGet r "Name" with
    | some v =>
      have hv : v.truthy = true := by
        rw [e2] at h2; simpa [Option.all] using h2
      simp [nameField, nameFieldSpec, firstTruthy, e1, e2, hv]
    | none =>
      cases e3 : recordGet r "fullname" with
      | some v =>
        have hv : v.truthy = true := by
          rw [e3] at h3; simpa [Option.all] using h3
        simp [nameField, nameFieldSpec, firstTruthy, e1, e2, e3, hv]
      | none =>
        cases e4 : recordGet r "FullName" with
        | some v =>
          have hv : v.truthy = true := by
            rw [e4] at h4; simpa [Option.all] using h4
          simp [nameField, nameFieldSpec, firstTruthy, e1, e2, e3, e4, hv]
        | none =>
          simp [nameField, nameFieldSpec, firstTruthy, e1, e2, e3, e4]

/-- Sanitizing a character always yields a filesystem-safe character. -/
theorem sanitizeChar_safe (c : Char) : isSafeChar (sanitizeChar c) = true := by
  by_cases h : isSafeChar c = true
  · simp [sanitizeChar, h]
  · simp only [sanitizeChar, if_neg h]
    decide

/-- Truncation bounds the resulting length. -/
theorem strTake_length_le (n : Nat) (s : String) :
    (strTake n s).length ≤ n := by
  have h : (strTake n s).length = (s.data.take n).length := rfl
  rw [h, List.length_take]
  exact min_le_left _ _

/-- Every character of a sanitized string is filesystem-safe. -/
theorem mem_sanitize_safe (s : String) :
    ∀ c ∈ (sanitize s).data, isSafeChar c = true := by
  intro c hc
  have h : (sanitize s).data = s.data.map sanitizeChar := rfl
  rw [h] at hc
  rcases List.mem_map.mp hc with ⟨c0, _, rfl⟩
  exact sanitizeChar_safe c0

/-- Characters survive truncation only from the original string. -/
theorem mem_strTake (n : Nat) (s : String) (c : Char)
    (hc : c ∈ (strTake n s).data) : c ∈ s.data := by
  have h : (strTake n s).data = s.data.take n := rfl
  rw [h] at hc
  exact List.mem_of_mem_take hc

/-- C6: when the name-like keys hold truthy values where present, the
output filename is certificate-(sanitized fragment)-(first 8 uuid
characters).pdf, where the fragment is chosen by the priority list name,
Name, fullname, FullName with positional fallback, sanitized to the safe
charset and truncated to 50 characters. -/
theorem filename_derivation (r : DataRecord) (index : Nat) (uuid : String)
    (ht : ∀ k ∈ (["name", "Name", "fullname", "FullName"] : List String),
      Option.all JsValue.truthy (recordGet r k) = true) :
    generateFileName r index uuid =
      "certificate-" ++ strTake 50 (sanitize (nameFieldSpec r index)) ++ "-"
        ++ strTake 8 uuid ++ ".pdf"
    ∧ (strTake 50 (sanitize (nameFieldSpec r index))).length ≤ 50
    ∧ ∀ c ∈ (strTake 50 (sanitize (nameFieldSpec r index))).data,
        isSafeChar c = true := by
  refine ⟨?_, strTake_length_le 50 _, ?_⟩
  · unfold generateFileName
    rw [nameField_agrees r index ht]
  · intro c hc
    exact mem_sanitize_safe _ c (mem_strTake 50 _ c hc)

/-- Witness for C6 at the concrete witness record. -/
theorem filename_derivation_witness :
    (∀ k ∈ (["name", "Name", "fullname", "FullName"] : List String),
      Option.all JsValue.truthy (recordGet wRecord k) = true)
    ∧ (generateFileName wRecord 0 "0123456789abcdef" =
        "certificate-" ++ strTake 50 (sanitize (nameFieldSpec wRecord 0))
          ++ "-" ++ strTake 8 "0123456789abcdef" ++ ".pdf"
      ∧ (strTake 50 (sanitize (nameFieldSpec wRecord 0))).length ≤ 50
      ∧ ∀ c ∈ (strTake 50 (sanitize (nameFieldSpec wRecord 0))).data,
          isSafeChar c = true) :=
  ⟨by decide, filename_derivation wRecord 0 "0123456789abcdef" (by decide)⟩

/-- Structure of a successful generation loop: the manifest carries the
input records in order, and the files written are exactly the manifest
names joined below the batch directory, in the same order. -/
theorem generateLoop_spec (env : GenEnv) (t : ICertificateTemplate)
    (pkg : PackageType) (batchDir : String) :
    ∀ (records : List DataRecord) (i : Nat)
      (certs : List GeneratedCertificate),
      (generateLoop env t pkg batchDir records i).1 = .ok certs →
      certs.map (fun c => c.data) = records
      ∧ (generateLoop env t pkg batchDir records i).2.map (fun f => f.1)
          = certs.map (fun c => pathJoin batchDir c.name) := by
  intro records
  induction records with
  | nil =>
    intro i certs h
    simp only [generateLoop] at h
    injection h with h
    subst h
    simp [generateLoop]
  | cons r rs ih =>
    intro i certs h
    simp only [generateLoop] at h ⊢
    cases hs : generateSingle env.fs t r pkg with
    | error e =>
      rw [hs] at h
      simp at h
    | ok doc =>
      rw [hs] at h
      dsimp only at h ⊢
      cases hr : (generateLoop env t pkg batchDir rs (i + 1)).1 with
      | error e =>
        rw [hr] at h
        simp at h
      | ok certs2 =>
        rw [hr] at h
        dsimp only at h ⊢
        injection h with h
        subst h
        obtain ⟨ha, hb⟩ := ih (i + 1) certs2 hr
        simp [List.map_cons, ha, hb]

/-- C3: a successful batch generation over a non-empty record list yields
one manifest entry per record in input order (entry i carries record i as
its data) and the returned count equals the number of records. -/
theorem batch_manifest_matches_records (env : GenEnv)
    (fs0 : List (String × List PdfOp)) (t : ICertificateTemplate)
    (records : List DataRecord) (pkg : PackageType)
    (res : GenerationResult) (hne : records ≠ [])
    (hres : (generate env fs0 t records pkg).result = .ok res) :
    res.certificates.map (fun c => c.data) = records
    ∧ res.certificates.length = records.length
    ∧ res.count = records.length := by
  cases hval : validateTemplate env.fs t with
  | error e => simp [generate, hval] at hres
  | ok u =>
    simp only [generate, hval] at hres
    cases hr : (generateLoop env t pkg
        (pathJoin "output" ("batch-" ++ toString env.nowBatch))
        records 0).1 with
    | error e =>
      rw [hr] at hres
      simp at hres
    | ok certs =>
      rw [hr] at hres
      dsimp only at hres
      injection hres with hres
      subst hres
      obtain ⟨ha, _⟩ := generateLoop_spec env t pkg _ records 0 certs hr
      refine ⟨ha, ?_, ?_⟩
      · rw [← ha, List.length_map]
      · show certs.length = records.length
        rw [← ha, List.length_map]

/-- Witness for C3 at the concrete single-record witness run. -/
theorem batch_manifest_matches_records_witness :
    ([wRecord] ≠ ([] : List DataRecord))
    ∧ ((generate wEnv [] wTpl [wRecord] PackageType.standard).result
        = .ok wResult)
    ∧ (wResult.certificates.map (fun c => c.data) = [wRecord]
      ∧ wResult.certificates.length = [wRecord].length
      ∧ wResult.count = [wRecord].length) :=
  ⟨by decide, rfl,
   batch_manifest_matches_records wEnv [] wTpl [wRecord]
     PackageType.standard wResult (by decide) rfl⟩

/-- C2 (counterexample): two generation calls with distinct inputs and
distinct uuid streams but the same millisecond clock reading both succeed
and land in the same batch directory with the same archive path - the
batch id carries no randomness, so concurrent invocations collide. -/
theorem batch_id_collision :
    cRecA ≠ cRecB
    ∧ cEnvA.uuids 0 ≠ cEnvB.uuids 0
    ∧ (generate cEnvA [] wTpl [cRecA] PackageType.standard).result
        = .ok cResA
    ∧ (generate cEnvB [] wTpl [cRecB] PackageType.standard).result
        = .ok cResB
    ∧ cResA ≠ cResB
    ∧ cResA.batchDir = cResB.batchDir
    ∧ cResA.zipPath = cResB.zipPath :=
  ⟨by decide, by decide, rfl, rfl, by decide, rfl, rfl⟩

/-- C2 (amended): the batch directory and the archive path of a successful
generation call are derived from the two Date.now() readings alone -
output/batch-(millis) and output/certificates-(millis).zip - with no
random component. -/
theorem batch_paths_time_derived (env : GenEnv)
    (fs0 : List (String × List PdfOp)) (t : ICertificateTemplate)
    (records : List DataRecord) (pkg : PackageType)
    (res : GenerationResult)
    (hres : (generate env fs0 t records pkg).result = .ok res) :
    res.batchDir = pathJoin "output" ("batch-" ++ toString env.nowBatch)
    ∧ res.zipPath = pathJoin "output"
        ("certificates-" ++ toString env.nowZip ++ ".zip") := by
  cases hval : validateTemplate env.fs t with
  | error e => simp [generate, hval] at hres
  | ok u =>
    simp only [generate, hval] at hres
    cases hr : (generateLoop env t pkg
        (pathJoin "output" ("batch-" ++ toString env.nowBatch))
        records 0).1 with
    | error e =>
      rw [hr] at hres
      simp at hres
    | ok certs =>
      rw [hr] at hres
      dsimp only at hres
      injection hres with hres
      subst hres
      exact ⟨rfl, rfl⟩

/-- Witness for the amended C2 at the concrete witness run. -/
theorem batch_paths_time_derived_witness :
    ((generate wEnv [] wTpl [wRecord] PackageType.standard).result
      = .ok wResult)
    ∧ (wResult.batchDir
        = pathJoin "output" ("batch-" ++ toString wEnv.nowBatch)
      ∧ wResult.zipPath = pathJoin "output"
          ("certificates-" ++ toString wEnv.nowZip ++ ".zip")) :=
  ⟨rfl,
   batch_paths_time_derived wEnv [] wTpl [wRecord] PackageType.standard
     wResult rfl⟩

/-- Appending strings appends their character lists. -/
theorem str_data_append (s t : String) : (s ++ t).data = s.data ++ t.data :=
  rfl

/-- The character list of a joined path. -/
theorem pathJoin_data (a b : String) :
    (pathJoin a b).data = (a.data ++ ['/']) ++ b.data := by
  show (a ++ "/" ++ b).data = _
  rw [str_data_append, str_data_append]

/-- A list is a Boolean prefix of itself extended on the right. -/
theorem isPrefixOf_append_self (l r : List Char) :
    List.isPrefixOf l (l ++ r) = true := by
  induction l with
  | nil => simp [List.isPrefixOf]
  | cons a l ih => simp [List.isPrefixOf, ih]

/-- A file placed directly in a directory lies below that directory. -/
theorem isUnder_pathJoin (dir nm : String) :
    isUnder dir (pathJoin dir nm) = true := by
  unfold isUnder
  rw [pathJoin_data]
  exact isPrefixOf_append_self _ _

/-- The archive entry name of a file placed directly in the source
directory is its base name. -/
theorem relName_pathJoin (dir nm : String) :
    relName dir (pathJoin dir nm) = nm := by
  unfold relName
  rw [pathJoin_data]
  have hlen : dir.data.length + 1 = (dir.data ++ ['/']).length := by simp
  rw [hlen, List.drop_left]

/-- Archiving a split filesystem archives both parts. -/
theorem createZipArchive_append (fs0 files : List (String × List PdfOp))
    (dir : String) :
    createZipArchive (fs0 ++ files) dir
      = createZipArchive fs0 dir ++ createZipArchive files dir := by
  simp [createZipArchive]

/-- Files all lying outside the source directory contribute no entries. -/
theorem createZipArchive_nil (fs0 : List (String × List PdfOp))
    (dir : String) (h : ∀ q ∈ fs0, isUnder dir q.1 = false) :
    createZipArchive fs0 dir = [] := by
  have hfil : List.filter (fun f => isUnder dir f.1) fs0 = [] := by
    rw [List.filter_eq_nil_iff]
    intro a ha
    simp [h a ha]
  simp [createZipArchive, hfil]

/-- Unfolding one file of the archive builder. -/
theorem createZipArchive_cons (f : String × List PdfOp)
    (fs : List (String × List PdfOp)) (dir : String) :
    createZipArchive (f :: fs) dir =
      if isUnder dir f.1 then
        ⟨relName dir f.1, f.2, 9⟩ :: createZipArchive fs dir
      else createZipArchive fs dir := by
  by_cases h : isUnder dir f.1 <;>
    simp [createZipArchive, List.filter_cons, h]

/-- Archiving files whose paths are base names joined below the source
directory yields exactly those base names, in order. -/
theorem createZipArchive_names (dir : String) :
    ∀ (files : List (String × List PdfOp)) (names : List String),
      files.map (fun f => f.1) = names.map (fun nm => pathJoin dir nm) →
      (createZipArchive files dir).map (fun e => e.name) = names := by
  intro files
  induction files with
  | nil =>
    intro names h
    cases names with
    | nil => rfl
    | cons a l => simp at h
  | cons f fs ih =>
    intro names h
    cases names with
    | nil => simp at h
    | cons nm nms =>
      simp only [List.map_cons, List.cons.injEq] at h
      obtain ⟨h1, h2⟩ := h
      rw [createZipArchive_cons, h1, isUnder_pathJoin]
      simp only [if_true]
      simp [relName_pathJoin, ih nms h2]

/-- Every archive entry is stored at zlib level 9 (maximum compression). -/
theorem createZipArchive_level (files : List (String × List PdfOp))
    (dir : String) : ∀ e ∈ createZipArchive files dir, e.level = 9 := by
  intro e he
  simp only [createZipArchive, List.mem_map] at he
  obtain ⟨f, _, rfl⟩ := he
  rfl

/-- C9: for a completed batch over a filesystem with nothing already below
the batch directory, the archive's entry names are exactly the manifest's
output filenames, in order, and every entry is stored at maximum
compression (zlib level 9) under its base name. -/
theorem archive_matches_manifest (env : GenEnv)
    (fs0 : List (String × List PdfOp)) (t : ICertificateTemplate)
    (records : List DataRecord) (pkg : PackageType)
    (res : GenerationResult)
    (hres : (generate env fs0 t records pkg).result = .ok res)
    (hfresh : ∀ q ∈ fs0, isUnder res.batchDir q.1 = false) :
    (generate env fs0 t records pkg).zipEntries.map (fun e => e.name)
      = res.certificates.map (fun c => c.name)
    ∧ ∀ e ∈ (generate env fs0 t records pkg).zipEntries, e.level = 9 := by
  cases hval : validateTemplate env.fs t with
  | error e => simp [generate, hval] at hres
  | ok u =>
    simp only [generate, hval] at hres ⊢
    cases hr : (generateLoop env t pkg
        (pathJoin "output" ("batch-" ++ toString env.nowBatch))
        records 0).1 with
    | error e =>
      rw [hr] at hres
      simp at hres
    | ok certs =>
      rw [hr] at hres
      dsimp only at hres ⊢
      injection hres with hres
      subst hres
      obtain ⟨_, hfiles⟩ := generateLoop_spec env t pkg _ records 0 certs hr
      have hfiles2 :
          (generateLoop env t pkg
            (pathJoin "output" ("batch-" ++ toString env.nowBatch))
            records 0).2.map (fun f => f.1)
          = (certs.map (fun c => c.name)).map
              (fun nm => pathJoin
                (pathJoin "output" ("batch-" ++ toString env.nowBatch)) nm) := by
        rw [List.map_map]
        simpa [Function.comp] using hfiles
      refine ⟨?_, ?_⟩
      · rw [createZipArchive_append, createZipArchive_nil fs0 _ hfresh,
          List.nil_append]
        exact createZipArchive_names _ _ _ hfiles2
      · intro e he
        rw [createZipArchive_append, createZipArchive_nil fs0 _ hfresh,
          List.nil_append] at he
        exact createZipArchive_level _ _ e he

/-- Witness for C9 at the concrete witness run over an empty prior
filesystem. -/
theorem archive_matches_manifest_witness :
    ((generate wEnv [] wTpl [wRecord] PackageType.standard).result
      = .ok wResult)
    ∧ (∀ q ∈ ([] : List (String × List PdfOp)),
        isUnder wResult.batchDir q.1 = false)
    ∧ ((generate wEnv [] wTpl [wRecord] PackageType.standard).zipEntries.map
        (fun e => e.name) = wResult.certificates.map (fun c => c.name)
      ∧ ∀ e ∈ (generate wEnv [] wTpl [wRecord]
          PackageType.standard).zipEntries, e.level = 9) :=
  ⟨rfl, by simp,
   archive_matches_manifest wEnv [] wTpl [wRecord] PackageType.standard
     wResult rfl (by simp)⟩

end CertGen
